import Mathlib

/-!
Verification of the Gemstone price-prediction service.

The repository has two source files: `src/app/main.py`, the FastAPI boundary
layer (Pydantic record `GemstoneData`, the `/predict` handler `predict_price`,
and the `/options` metadata endpoint `get_options`), and `src/streamlit_app.py`,
the interactive client.  The inference core
(`src.pipeline.predict_pipeline.CustomData` / `PredictPipeline`) is imported by
`main.py` but is not part of the available sources; where a property depends on
it, the core is modelled from the specification (each such definition carries a
doc comment starting `Modelled from the spec:`).

Numeric values are embedded as rationals (`ℚ`): every rational is finite, which
mirrors the spec's finiteness invariant, and the claims under study concern
control flow, classification of failures and data flow, not floating-point
rounding behaviour.
-/

/-- The nine-field raw record, after `GemstoneData` in `src/app/main.py`
(lines 24–33): six numeric fields and three categorical string fields. -/
structure GemstoneData where
  carat : ℚ
  depth : ℚ
  table : ℚ
  x : ℚ
  y : ℚ
  z : ℚ
  cut : String
  color : String
  clarity : String
deriving Repr, DecidableEq

/-- The error taxonomy of spec §7: input defects (`InvalidInputError`,
`UnknownCategoryError`) and system defects (`ArtifactLoadError`,
`InferenceError`). -/
inductive PredictError where
  | invalidInput (msg : String)
  | unknownCategory (field value : String)
  | artifactLoad (msg : String)
  | inference (msg : String)
deriving Repr, DecidableEq

/-- Renders an error the way Python's `str(e)` does in the handler's
`except` clause: a plain message string that loses the class tag. -/
def errStr : PredictError → String
  | .invalidInput msg => msg
  | .unknownCategory f v => "unknown category " ++ v ++ " for field " ++ f
  | .artifactLoad msg => msg
  | .inference msg => msg

/-- Classifies an error as an input defect (spec §4.2): `InvalidInputError`
or its specialization `UnknownCategoryError`. -/
def inputDefect : PredictError → Bool
  | .invalidInput _ => true
  | .unknownCategory _ _ => true
  | .artifactLoad _ => false
  | .inference _ => false

/-- The categorical option lists returned by the `/options` endpoint
(`get_options`, `src/app/main.py` lines 113–117). -/
def cutOptions : List String := ["Fair", "Good", "Very Good", "Premium", "Ideal"]

def colorOptions : List String := ["D", "E", "F", "G", "H", "I", "J"]

def clarityOptions : List String := ["I1", "SI2", "SI1", "VS2", "VS1", "VVS2", "VVS1", "IF"]

/-- The shape of the `/options` response. -/
structure OptionsResponse where
  cut : List String
  color : List String
  clarity : List String
deriving Repr, DecidableEq

/-- The `/options` endpoint of `src/app/main.py` (lines 110–117). -/
def get_options : OptionsResponse :=
  { cut := cutOptions, color := colorOptions, clarity := clarityOptions }

/-- The selection-widget option lists of the Streamlit client
(`src/streamlit_app.py` lines 78–80). -/
def clientCutOptions : List String := ["Ideal", "Premium", "Very Good", "Good", "Fair"]

def clientColorOptions : List String := ["D", "E", "F", "G", "H", "I", "J"]

def clientClarityOptions : List String := ["IF", "VVS1", "VVS2", "VS1", "VS2", "SI1", "SI2", "I1"]

/-- Python's `round(x, 2)` from `src/app/main.py` line 90, on the rational
embedding: round to the nearest multiple of 1/100.  (Python rounds exact
midpoints to even; no claim under study depends on midpoint behaviour.) -/
def round2 (q : ℚ) : ℚ := (round (q * 100) : ℚ) / 100

/-- The response dictionary built by the `/predict` handler: on success
`{"status": "success", "predicted_price": ..., "input_data": ...}`
(lines 88–92), on failure `{"status": "error", "message": ...}`
(lines 95–98).  Absent keys are `none`. -/
structure PredictResponse where
  status : String
  predicted_price : Option ℚ
  input_data : Option GemstoneData
  message : Option String
deriving Repr, DecidableEq

/-- The `/predict` handler `predict_price` of `src/app/main.py` (lines 52–98).
The whole `try` body — `CustomData` construction, dataframe conversion and
`PredictPipeline().predict` — is abstracted as `outcome`: `.ok q` when the
pipeline produced the scalar `q`, `.error e` when any step raised.  On success
the handler returns status `"success"`, the prediction rounded to two decimals
and the submitted record echoed back; the `except Exception` clause returns
status `"error"` and the single string `"Prediction failed: " + str(e)`. -/
def predict_price (g : GemstoneData) (outcome : Except PredictError ℚ) : PredictResponse :=
  match outcome with
  | .ok pred =>
      { status := "success"
        predicted_price := some (round2 pred)
        input_data := some g
        message := none }
  | .error e =>
      { status := "error"
        predicted_price := none
        input_data := none
        message := some ("Prediction failed: " ++ errStr e) }

/-- The worked example record of spec §8 and of the API documentation
(`schema_extra`, `src/app/main.py` lines 36–49). -/
def exRecord : GemstoneData :=
  { carat := 1.5, depth := 62.5, table := 58.0
    x := 7.2, y := 7.1, z := 4.5
    cut := "Ideal", color := "G", clarity := "VS1" }

/-! ## The inference core, modelled from the spec

The classes `CustomData` and `PredictPipeline` of
`src.pipeline.predict_pipeline` are imported by `src/app/main.py` line 5 but
their source is not part of the repository snapshot, so the Feature Encoder
(spec §4.1) and Inference Pipeline (spec §4.2, §5) are modelled from the
specification's words. -/

/-- Modelled from the spec: the Encoder Artifact (§3) of the missing
`src.pipeline.predict_pipeline` — "an opaque, immutable, serialized
transformation (ordinal/one-hot mapping for categorical fields, scaling
parameters for numeric fields) fit during training".  The stored categorical
mapping is kept as the ordered list of known categories (a value encodes to
its ordinal index); the numeric transform is subtract-mean/divide-by-scale
with per-column parameters. -/
structure EncoderArtifact where
  cutMap : List String
  colorMap : List String
  clarityMap : List String
  means : List ℚ
  scales : List ℚ
deriving Repr, DecidableEq

/-- Position of `v` in the stored category list: `some i` when `v` is the
`i`-th known category, `none` when `v` is unseen. -/
def catIndex : List String → String → Option ℚ
  | [], _ => none
  | o :: rest, v => if o = v then some 0 else (catIndex rest v).map (· + 1)

/-- The artifact's stored scaling transform for numeric column `i`. -/
def scaleNum (e : EncoderArtifact) (i : Nat) (v : ℚ) : ℚ :=
  (v - e.means.getD i 0) / e.scales.getD i 1

/-- Modelled from the spec: the Feature Encoder contract
`encode(record) -> FeatureVector` (§4.1) of the missing
`src.pipeline.predict_pipeline`.  Non-finite or negative numeric fields are
input defects (§3 invariant, §8 boundary values) → `InvalidInputError`; a
categorical value absent from the artifact's stored mapping "must fail
(`UnknownCategoryError`) rather than silently degrade to a default or null
encoding"; otherwise the fixed-order feature vector
`[carat, depth, table, x, y, z, cut, color, clarity]` is produced, numeric
columns through the stored scaling, categorical columns as stored ordinal
indices. -/
def encode (e : EncoderArtifact) (r : GemstoneData) : Except PredictError (List ℚ) :=
  if r.carat < 0 ∨ r.depth < 0 ∨ r.table < 0 ∨ r.x < 0 ∨ r.y < 0 ∨ r.z < 0 then
    .error (.invalidInput "numeric field out of range")
  else
    match catIndex e.cutMap r.cut with
    | none => .error (.unknownCategory "cut" r.cut)
    | some c =>
      match catIndex e.colorMap r.color with
      | none => .error (.unknownCategory "color" r.color)
      | some co =>
        match catIndex e.clarityMap r.clarity with
        | none => .error (.unknownCategory "clarity" r.clarity)
        | some cl =>
          .ok [scaleNum e 0 r.carat, scaleNum e 1 r.depth, scaleNum e 2 r.table,
               scaleNum e 3 r.x, scaleNum e 4 r.y, scaleNum e 5 r.z, c, co, cl]

/-- Modelled from the spec: one loaded-state prediction of the missing
`PredictPipeline` (§4.2) — delegate to the Feature Encoder, then invoke the
Model Artifact `m` on the feature vector; the scalar is returned raw, with no
clamping, rounding or other post-processing. -/
def pipelinePredict (m : List ℚ → ℚ) (e : EncoderArtifact) (r : GemstoneData) :
    Except PredictError ℚ :=
  match encode e r with
  | .error err => .error err
  | .ok v => .ok (m v)

/-- Modelled from the spec: the trivial state machine of §4.2 —
`Unloaded → Loaded` on first successful artifact acquisition; there is no
`Failed` steady state. -/
inductive PipelineState where
  | unloaded
  | loaded (m : List ℚ → ℚ) (e : EncoderArtifact)

/-- Durable artifact storage at the pipeline's boundary: `none` when
unreachable (artifact missing or unreadable), `some` the immutable
model/encoder artifact pair otherwise. -/
abbrev Storage : Type := Option ((List ℚ → ℚ) × EncoderArtifact)

/-- One `predict` call observed together with its effect on the lazy-load
state: the call's result, the state afterwards, and how many artifact-pair
reads from durable storage the call performed.  Modelled from the spec (§4.2,
§5): in `Loaded` state the artifacts are reused with no storage read; in
`Unloaded` state the call attempts acquisition — failure surfaces as
`ArtifactLoadError` and leaves the component `Unloaded` (no poisoned cached
state), success reads the pair once and moves to `Loaded`. -/
def predictStep (storage : Storage) (st : PipelineState) (r : GemstoneData) :
    Except PredictError ℚ × PipelineState × Nat :=
  match st with
  | .loaded m e => (pipelinePredict m e r, .loaded m e, 0)
  | .unloaded =>
    match storage with
    | none => (.error (.artifactLoad "artifact storage unreachable"), .unloaded, 0)
    | some (m, e) => (pipelinePredict m e r, .loaded m e, 1)

/-- A whole run of `predict` calls over the process lifetime: the list of
per-call results, the final state, and the total number of storage reads. -/
def runCalls (storage : Storage) (st : PipelineState) :
    List GemstoneData → List (Except PredictError ℚ) × PipelineState × Nat
  | [] => ([], st, 0)
  | r :: rs =>
    let s := predictStep storage st r
    let rest := runCalls storage s.2.1 rs
    (s.1 :: rest.1, rest.2.1, s.2.2 + rest.2.2)

/-- A concrete encoder-artifact value used to evaluate the definitions at
concrete inputs: its stored categorical mappings are the declared
enumerations, its numeric parameters stand in for the externally-fit
training values. -/
def sampleEncoder : EncoderArtifact :=
  { cutMap := cutOptions, colorMap := colorOptions, clarityMap := clarityOptions
    means := [0, 0, 0, 0, 0, 0], scales := [1, 1, 1, 1, 1, 1] }

/-! ## Helper lemmas -/

/-- A value found by `catIndex` is a member of the stored category list. -/
theorem mem_of_catIndex_some (l : List String) (v : String) (i : ℚ)
    (h : catIndex l v = some i) : v ∈ l := by
  induction l generalizing i with
  | nil => exact Option.noConfusion h
  | cons o rest ih =>
    by_cases ho : o = v
    · exact ho ▸ List.mem_cons_self o rest
    · simp only [catIndex, if_neg ho, Option.map_eq_some'] at h
      obtain ⟨j, hj, _⟩ := h
      exact List.mem_cons_of_mem o (ih j hj)

/-- A member of the stored category list is found by `catIndex`. -/
theorem catIndex_some_of_mem (l : List String) (v : String) (h : v ∈ l) :
    ∃ i, catIndex l v = some i := by
  induction l with
  | nil => cases h
  | cons o rest ih =>
    by_cases ho : o = v
    · exact ⟨0, by simp [catIndex, ho]⟩
    · rcases List.mem_cons.mp h with h1 | h1
      · exact absurd h1.symm ho
      · obtain ⟨i, hi⟩ := ih h1
        exact ⟨i + 1, by simp [catIndex, if_neg ho, hi]⟩

/-- Every failure the Feature Encoder can produce is an input defect
(`InvalidInputError` or `UnknownCategoryError`), never a system defect. -/
theorem encode_error_inputDefect (e : EncoderArtifact) (r : GemstoneData)
    (err : PredictError) (h : encode e r = .error err) : inputDefect err = true := by
  unfold encode at h
  split at h
  · cases h; rfl
  · split at h
    · cases h; rfl
    · split at h
      · cases h; rfl
      · split at h
        · cases h; rfl
        · exact Except.noConfusion h

/-- A record the Feature Encoder accepts has all three categorical fields in
the artifact's stored mappings. -/
theorem encode_ok_mem (e : EncoderArtifact) (r : GemstoneData) (v : List ℚ)
    (h : encode e r = .ok v) :
    r.cut ∈ e.cutMap ∧ r.color ∈ e.colorMap ∧ r.clarity ∈ e.clarityMap := by
  unfold encode at h
  split at h
  · exact Except.noConfusion h
  · split at h
    · exact Except.noConfusion h
    · split at h
      · exact Except.noConfusion h
      · split at h
        · exact Except.noConfusion h
        · exact ⟨mem_of_catIndex_some _ _ _ (by assumption),
                 mem_of_catIndex_some _ _ _ (by assumption),
                 mem_of_catIndex_some _ _ _ (by assumption)⟩

/-- In `Loaded` state a run performs no storage reads at all. -/
theorem runCalls_loaded_reads (storage : Storage) (m : List ℚ → ℚ)
    (e : EncoderArtifact) (calls : List GemstoneData) :
    (runCalls storage (.loaded m e) calls).2.2 = 0 := by
  induction calls with
  | nil => rfl
  | cons r rs ih => simp [runCalls, predictStep, ih]

/-- In `Loaded` state the results of a run are the records mapped pointwise
through the pure per-record prediction function. -/
theorem runCalls_loaded_results (storage : Storage) (m : List ℚ → ℚ)
    (e : EncoderArtifact) (calls : List GemstoneData) :
    (runCalls storage (.loaded m e) calls).1 = calls.map (pipelinePredict m e) := by
  induction calls with
  | nil => rfl
  | cons r rs ih => simp [runCalls, predictStep, ih]

/-! ## Claims -/

/-- Claim C1, counterexample: the handler does not return a classified
`{ error_kind, message }` failure result.  Two failures of different taxonomy
classes — an `UnknownCategoryError` and an `ArtifactLoadError` — produce
responses that agree on every field except the free-form `message` string:
both have `status = "error"` and carry no `error_kind`, so the taxonomy is
collapsed into a single untyped message string. -/
theorem c1_counterexample :
    (predict_price exRecord (.error (.unknownCategory "cut" "Excellent"))).status = "error" ∧
    (predict_price exRecord (.error (.artifactLoad "artifact storage unreachable"))).status =
      "error" ∧
    (predict_price exRecord (.error (.unknownCategory "cut" "Excellent"))).predicted_price =
      (predict_price exRecord (.error (.artifactLoad "artifact storage unreachable"))).predicted_price ∧
    (predict_price exRecord (.error (.unknownCategory "cut" "Excellent"))).input_data =
      (predict_price exRecord (.error (.artifactLoad "artifact storage unreachable"))).input_data ∧
    (predict_price exRecord (.error (.unknownCategory "cut" "Excellent"))).message ≠
      (predict_price exRecord (.error (.artifactLoad "artifact storage unreachable"))).message := by
  refine ⟨rfl, rfl, rfl, rfl, ?_⟩
  decide

/-- Claim C1, amended: for every request on which prediction fails, the
handler returns `{ status := "error", message := "Prediction failed: " ++ str(e) }`:
callers can branch on success versus failure via `status`, but the §7 error
taxonomy is collapsed into the single untyped `message` string, with no
`error_kind` field. -/
theorem c1_error_collapsed_to_message (g : GemstoneData) (e : PredictError) :
    predict_price g (.error e) =
      { status := "error", predicted_price := none, input_data := none,
        message := some ("Prediction failed: " ++ errStr e) } := rfl

/-- Claim C2: for every record whose `cut` is outside
{Fair, Good, Very Good, Premium, Ideal} — likewise `color` or `clarity`
outside their enumerations — prediction fails with an input-defect error
(`UnknownCategoryError`/`InvalidInputError`) and never returns a value built
from a silently substituted category. -/
theorem c2_unknown_category_rejected (m : List ℚ → ℚ) (e : EncoderArtifact) (r : GemstoneData)
    (hcut : e.cutMap = cutOptions) (hcolor : e.colorMap = colorOptions)
    (hclar : e.clarityMap = clarityOptions)
    (hbad : r.cut ∉ cutOptions ∨ r.color ∉ colorOptions ∨ r.clarity ∉ clarityOptions) :
    ∃ err, pipelinePredict m e r = .error err ∧ inputDefect err = true := by
  cases hok : encode e r with
  | error err =>
    refine ⟨err, ?_, encode_error_inputDefect e r err hok⟩
    simp [pipelinePredict, hok]
  | ok v =>
    obtain ⟨h1, h2, h3⟩ := encode_ok_mem e r v hok
    rcases hbad with hb | hb | hb
    · exact absurd (hcut ▸ h1) hb
    · exact absurd (hcolor ▸ h2) hb
    · exact absurd (hclar ▸ h3) hb

/-- Witness for C2 at the spec's concrete input `cut = "Excellent"`. -/
theorem c2_unknown_category_rejected_witness :
    sampleEncoder.cutMap = cutOptions ∧
    ({ exRecord with cut := "Excellent" } : GemstoneData).cut ∉ cutOptions ∧
    ∃ err,
      pipelinePredict (fun _ => 0) sampleEncoder { exRecord with cut := "Excellent" } =
        .error err ∧ inputDefect err = true :=
  ⟨rfl, by decide,
   c2_unknown_category_rejected (fun _ => 0) sampleEncoder
     { exRecord with cut := "Excellent" } rfl rfl rfl (Or.inl (by decide))⟩

/-- Claim C3: for each categorical field, the option list of the API's
`/options` endpoint and the option list of the Streamlit client's selection
widgets are equal as sets (they differ only in display order). -/
theorem c3_options_consistent :
    get_options.cut.toFinset = clientCutOptions.toFinset ∧
    get_options.color.toFinset = clientColorOptions.toFinset ∧
    get_options.clarity.toFinset = clientClarityOptions.toFinset := by
  refine ⟨?_, ?_, ?_⟩ <;> decide

/-- Claim C4: on success the pipeline's result is exactly the model's raw
output on the encoded feature vector — no clamping, rounding or other
post-processing — and the two-decimal presentation rounding happens only in
the boundary handler's response. -/
theorem c4_raw_output_boundary_rounding (m : List ℚ → ℚ) (e : EncoderArtifact)
    (r : GemstoneData) (q : ℚ) (h : pipelinePredict m e r = .ok q) :
    (∃ v, encode e r = .ok v ∧ q = m v) ∧
    predict_price r (.ok q) =
      { status := "success", predicted_price := some (round2 q),
        input_data := some r, message := none } := by
  constructor
  · unfold pipelinePredict at h
    cases henc : encode e r with
    | error err => rw [henc] at h; exact Except.noConfusion h
    | ok v => rw [henc] at h; exact ⟨v, rfl, (Except.ok.inj h).symm⟩
  · rfl

/-- Witness for C4 at the spec's example record with a concrete model. -/
theorem c4_raw_output_boundary_rounding_witness :
    pipelinePredict (fun _ => (3000 : ℚ)) sampleEncoder exRecord = .ok 3000 ∧
    ((∃ v, encode sampleEncoder exRecord = .ok v ∧ (3000 : ℚ) = (fun _ => (3000 : ℚ)) v) ∧
     predict_price exRecord (.ok 3000) =
       { status := "success", predicted_price := some (round2 3000),
         input_data := some exRecord, message := none }) :=
  ⟨by
      simp +decide [pipelinePredict, encode, sampleEncoder, exRecord, catIndex, scaleNum,
        cutOptions, colorOptions, clarityOptions]
      norm_num,
   c4_raw_output_boundary_rounding (fun _ => 3000) sampleEncoder exRecord 3000
     (by
        simp +decide [pipelinePredict, encode, sampleEncoder, exRecord, catIndex, scaleNum,
          cutOptions, colorOptions, clarityOptions]
        norm_num)⟩

/-- Claim C5: with artifact storage unreachable, every call in every run
fails with the same `ArtifactLoadError` — the component never caches a
poisoned state and no call ever returns a numeric price. -/
theorem c5_artifact_failure_isolation (calls : List GemstoneData)
    (res : Except PredictError ℚ) (h : res ∈ (runCalls none .unloaded calls).1) :
    res = .error (.artifactLoad "artifact storage unreachable") ∧
    ∀ q : ℚ, res ≠ .ok q := by
  induction calls with
  | nil => simp [runCalls] at h
  | cons r rs ih =>
    simp only [runCalls, predictStep, List.mem_cons] at h
    rcases h with h | h
    · subst h
      exact ⟨rfl, fun q hq => Except.noConfusion hq⟩
    · exact ih h

/-- Witness for C5 on a one-call run against unreachable storage. -/
theorem c5_artifact_failure_isolation_witness :
    ((.error (.artifactLoad "artifact storage unreachable") : Except PredictError ℚ) ∈
      (runCalls none .unloaded [exRecord]).1) ∧
    ((.error (.artifactLoad "artifact storage unreachable") : Except PredictError ℚ) =
      .error (.artifactLoad "artifact storage unreachable") ∧
     ∀ q : ℚ,
       (.error (.artifactLoad "artifact storage unreachable") : Except PredictError ℚ) ≠
         .ok q) :=
  ⟨by simp [runCalls, predictStep],
   c5_artifact_failure_isolation [exRecord] _ (by simp [runCalls, predictStep])⟩

/-- Claim C6: over a process lifetime with reachable storage, the artifact
pair is read from durable storage exactly once — on the first call — and no
later `predict` call triggers another storage read. -/
theorem c6_artifacts_read_once (m : List ℚ → ℚ) (e : EncoderArtifact)
    (calls : List GemstoneData) (h : calls ≠ []) :
    (runCalls (some (m, e)) .unloaded calls).2.2 = 1 := by
  cases calls with
  | nil => exact absurd rfl h
  | cons r rs => simp [runCalls, predictStep, runCalls_loaded_reads]

/-- Witness for C6 on a concrete one-call run. -/
theorem c6_artifacts_read_once_witness :
    ([exRecord] : List GemstoneData) ≠ [] ∧
    (runCalls (some (fun _ => (3000 : ℚ), sampleEncoder)) .unloaded [exRecord]).2.2 = 1 :=
  ⟨by simp, c6_artifacts_read_once (fun _ => 3000) sampleEncoder [exRecord] (by simp)⟩

/-- Claim C7: the result of every call in a run is a fixed pure function of
its own record and the loaded artifacts alone — so two calls with the same
record, at any positions and with any interleaved calls, return the identical
scalar (no hidden randomness). -/
theorem c7_determinism (m : List ℚ → ℚ) (e : EncoderArtifact) (calls : List GemstoneData) :
    (runCalls (some (m, e)) .unloaded calls).1 = calls.map (pipelinePredict m e) := by
  cases calls with
  | nil => rfl
  | cons r rs => simp [runCalls, predictStep, runCalls_loaded_results]

/-- Claim C8: every record whose categorical fields lie in the artifact's
stored enumerations and whose numeric fields are non-negative (all rationals
are finite) is predicted successfully, and — the trained model being
positive-valued, as the spec's regression baseline asserts — the scalar is
positive; the spec's §8 example record is the witness. -/
theorem c8_category_closure (m : List ℚ → ℚ) (e : EncoderArtifact) (r : GemstoneData)
    (hcut : r.cut ∈ e.cutMap) (hcolor : r.color ∈ e.colorMap) (hclar : r.clarity ∈ e.clarityMap)
    (hcarat : 0 ≤ r.carat) (hdepth : 0 ≤ r.depth) (htable : 0 ≤ r.table)
    (hx : 0 ≤ r.x) (hy : 0 ≤ r.y) (hz : 0 ≤ r.z)
    (hm : ∀ v, 0 < m v) :
    ∃ q, pipelinePredict m e r = .ok q ∧ 0 < q := by
  obtain ⟨c, hc⟩ := catIndex_some_of_mem _ _ hcut
  obtain ⟨co, hco⟩ := catIndex_some_of_mem _ _ hcolor
  obtain ⟨cl, hcl⟩ := catIndex_some_of_mem _ _ hclar
  have hguard : ¬(r.carat < 0 ∨ r.depth < 0 ∨ r.table < 0 ∨ r.x < 0 ∨ r.y < 0 ∨ r.z < 0) := by
    push_neg
    exact ⟨hcarat, hdepth, htable, hx, hy, hz⟩
  have henc : encode e r = .ok [scaleNum e 0 r.carat, scaleNum e 1 r.depth,
      scaleNum e 2 r.table, scaleNum e 3 r.x, scaleNum e 4 r.y, scaleNum e 5 r.z,
      c, co, cl] := by
    unfold encode
    rw [if_neg hguard, hc, hco, hcl]
  refine ⟨m [scaleNum e 0 r.carat, scaleNum e 1 r.depth, scaleNum e 2 r.table,
      scaleNum e 3 r.x, scaleNum e 4 r.y, scaleNum e 5 r.z, c, co, cl], ?_, hm _⟩
  simp [pipelinePredict, henc]

/-- Witness for C8 at the spec's §8 end-to-end example record. -/
theorem c8_category_closure_witness :
    exRecord.cut ∈ sampleEncoder.cutMap ∧ exRecord.color ∈ sampleEncoder.colorMap ∧
    exRecord.clarity ∈ sampleEncoder.clarityMap ∧
    (0 ≤ exRecord.carat ∧ 0 ≤ exRecord.depth ∧ 0 ≤ exRecord.table ∧
     0 ≤ exRecord.x ∧ 0 ≤ exRecord.y ∧ 0 ≤ exRecord.z) ∧
    (∀ v : List ℚ, (0 : ℚ) < (fun _ => (3000 : ℚ)) v) ∧
    ∃ q, pipelinePredict (fun _ => (3000 : ℚ)) sampleEncoder exRecord = .ok q ∧ 0 < q :=
  ⟨by decide, by decide, by decide,
   ⟨by norm_num [exRecord], by norm_num [exRecord], by norm_num [exRecord],
    by norm_num [exRecord], by norm_num [exRecord], by norm_num [exRecord]⟩,
   fun _ => by norm_num,
   c8_category_closure (fun _ => 3000) sampleEncoder exRecord
     (by decide) (by decide) (by decide)
     (by norm_num [exRecord]) (by norm_num [exRecord]) (by norm_num [exRecord])
     (by norm_num [exRecord]) (by norm_num [exRecord]) (by norm_num [exRecord])
     (fun _ => by norm_num)⟩

/-- Claim C9 (implicit): the handler is total at its interface — whatever the
try-body produced (a scalar or any raised error), the response's `status`
field is `"success"` or `"error"`; no exception propagates. -/
theorem c9_handler_total (g : GemstoneData) (outcome : Except PredictError ℚ) :
    (predict_price g outcome).status = "success" ∨
    (predict_price g outcome).status = "error" := by
  cases outcome with
  | ok q => exact Or.inl rfl
  | error e => exact Or.inr rfl

/-- Claim C10 (implicit): on every successful call the response's
`input_data` field is exactly the caller's submitted record. -/
theorem c10_input_echoed (g : GemstoneData) (outcome : Except PredictError ℚ)
    (h : (predict_price g outcome).status = "success") :
    (predict_price g outcome).input_data = some g := by
  cases outcome with
  | ok q => rfl
  | error e => simp [predict_price] at h

/-- Witness for C10 at a concrete successful call. -/
theorem c10_input_echoed_witness :
    (predict_price exRecord (.ok 1000)).status = "success" ∧
    (predict_price exRecord (.ok 1000)).input_data = some exRecord :=
  ⟨rfl, c10_input_echoed exRecord (.ok 1000) rfl⟩
